import Mathlib

/-!
Verification development for the SocialSpark orchestrator.

The definitions below are a shallow embedding of the Python sources:
`src/core/models.py`, `src/core/agent.py`, `src/core/storage.py`,
`src/agents/content_scheduler/agent.py` and
`src/agents/content_scheduler/adapters.py`.  Machine time (`datetime.now()`)
is modelled by an explicit `now : Nat` parameter; Python dictionaries keyed
by strings are modelled as association lists with replace-first insertion
(a Python `dict` never holds a duplicate key, so replace-first coincides
with `dict` assignment on every store the program builds).
-/

namespace SocialSpark

/-- Lookup in an association list, mirroring `d.get(k)` / `d[k]` on a
Python dict (first matching key wins). -/
def dictGet {α : Type} (k : String) : List (String × α) → Option α
  | [] => none
  | (k', v) :: rest => if k' = k then some v else dictGet k rest

/-- Keyed insert-or-replace, mirroring Python `d[k] = v` and MongoDB
`replace_one({_id: k}, v, upsert=True)`: the first entry with key `k` is
replaced in place, otherwise the pair is appended. -/
def dictUpsert {α : Type} (k : String) (v : α) : List (String × α) → List (String × α)
  | [] => [(k, v)]
  | (k', v') :: rest => if k' = k then (k, v) :: rest else (k', v') :: dictUpsert k v rest

/-- Number of entries stored under key `k`. -/
def countKey {α : Type} (k : String) (m : List (String × α)) : Nat :=
  (m.filter (fun p => p.1 = k)).length

/-- Status values for A2A tasks (`TaskStatus` in `src/core/models.py`). -/
inductive TaskStatus where
  | pending
  | in_progress
  | completed
  | failed
  | canceled
  deriving DecidableEq, Repr

/-- Terminal states of the task state machine (spec section 4.1). -/
def TaskStatus.isTerminal : TaskStatus → Bool
  | .completed => true
  | .failed => true
  | .canceled => true
  | _ => false

/-- Modelled from the spec, section 4.1: the allowed transition edges
`pending → in_progress → /completed, failed/` and `pending → canceled`.
This is the spec-side state machine, used to compare the code's behaviour
against the claimed invariant. -/
def specAllowedEdge : TaskStatus → TaskStatus → Bool
  | .pending, .in_progress => true
  | .in_progress, .completed => true
  | .in_progress, .failed => true
  | .pending, .canceled => true
  | _, _ => false

/-- Payload of a task data part.  `DataPart.data` is a free-form JSON dict
in the source; this record carries exactly the keys the two scheduler
handlers read, each defaulted the way `data.get(...)` defaults them. -/
structure PartData where
  user_id : Option String := none
  raw_text : Option String := none
  image_data : Option String := none
  target_platforms : List String := []
  schedule_time : Option String := none
  social_media_credentials : List (String × List (String × String)) := []
  socialspark_post_id : Option String := none
  platform : Option String := none
  status : Option String := none
  platform_post_id : Option String := none
  error_message : Option String := none
  deriving DecidableEq, Repr

/-- Python truthiness of an optional string (`if not x` is taken for both
`None` and the empty string). -/
def optTruthy : Option String → Bool
  | none => false
  | some s => s ≠ ""

/-- A data part of an A2A task (`DataPart` in `src/core/models.py`). -/
structure DataPart where
  id : String
  content_type : String
  data : PartData
  deriving DecidableEq, Repr

/-- An A2A task (`Task` in `src/core/models.py`).  `metadata` is an
association list standing for the optional metadata dict (`[]` for `None`,
which agrees with the source's `if not task.metadata` checks). -/
structure Task where
  id : String
  type : String
  status : TaskStatus := .pending
  created_at : Nat := 0
  updated_at : Nat := 0
  source_agent_id : String
  target_agent_id : String
  data_parts : List DataPart := []
  parent_task_id : Option String := none
  metadata : List (String × String) := []
  deriving DecidableEq, Repr

/-- Embedding of `Task.update_status` (`src/core/models.py` lines 57-60):
the status field is overwritten with the argument and `updated_at` is
stamped with the current time.  The source performs no transition check. -/
def Task.update_status (t : Task) (s : TaskStatus) (now : Nat) : Task :=
  { t with status := s, updated_at := now }

/-- Store an error string under the `error` key of a task's metadata,
mirroring `if not task.metadata: task.metadata = {}` followed by
`task.metadata["error"] = str(e)`. -/
def Task.setError (t : Task) (e : String) : Task :=
  { t with metadata := dictUpsert "error" e t.metadata }

/-- Embedding of the `PATCH /tasks/task_id` route (`update_task` in
`src/core/agent.py` lines 95-111) restricted to its `status` field, the
field the route treats specially by calling `task.update_status`.  Returns
`Except` with the HTTP error code on a missing task. -/
def update_task (tasks : List (String × Task)) (task_id : String)
    (newStatus : TaskStatus) (now : Nat) :
    Except Nat (List (String × Task) × Task) :=
  match dictGet task_id tasks with
  | none => .error 404
  | some t =>
    let t' := t.update_status newStatus now
    .ok (dictUpsert task_id t' tasks, t')

/-- Embedding of `extract_data_part_by_content_type`
(`src/core/utils.py`): the first data part with the given content type. -/
def extract_data_part_by_content_type (parts : List DataPart) (ct : String) :
    Option DataPart :=
  parts.find? (fun p => p.content_type = ct)

/-- Embedding of `_handle_incoming_task` (`src/core/agent.py` lines
156-187).  Returns the (possibly unchanged) task map together with either
the HTTP error (status code and detail string) or the accepted task.  The
source stores the task object and then mutates it to `in_progress`; since
the stored dict entry aliases the same object, the observable stored state
is the `in_progress` task, which is what the embedding records. -/
def handleIncomingTask (agentId : String) (handlerTypes : List String)
    (tasks : List (String × Task)) (t : Task) (now : Nat) :
    List (String × Task) × Except (Nat × String) Task :=
  if t.target_agent_id ≠ agentId then
    (tasks, .error (400, "Task target " ++ t.target_agent_id ++
      " does not match this agent (" ++ agentId ++ ")"))
  else if ¬ handlerTypes.contains t.type then
    (tasks, .error (400, "No handler for task type: " ++ t.type))
  else
    let t' := t.update_status .in_progress now
    (dictUpsert t.id t' tasks, .ok t')

/-- Embedding of `TaskStorage.save_task` (`src/core/storage.py` lines
109-125): a `replace_one(upsert=True)` keyed by `task.id`. -/
def saveTask (store : List (String × Task)) (t : Task) : List (String × Task) :=
  dictUpsert t.id t store

/-- Supported social platforms (`SocialPlatform` in
`src/agents/content_scheduler/models.py`). -/
inductive SocialPlatform where
  | facebook
  | twitter
  | instagram
  | linkedin
  deriving DecidableEq, Repr

/-- String value of a platform, as stored in `target_platforms`. -/
def SocialPlatform.val : SocialPlatform → String
  | .facebook => "facebook"
  | .twitter => "twitter"
  | .instagram => "instagram"
  | .linkedin => "linkedin"

/-- Python `str.lower()` restricted to ASCII, which is all the enum values
use. -/
def pyLower (s : String) : String :=
  (s.toList.map Char.toLower).asString

/-- Embedding of `SocialPlatform(platform_str.lower())`: the enum
constructor by value, `none` when the value raises `ValueError`. -/
def parsePlatform (s : String) : Option SocialPlatform :=
  if pyLower s = "facebook" then some .facebook
  else if pyLower s = "twitter" then some .twitter
  else if pyLower s = "instagram" then some .instagram
  else if pyLower s = "linkedin" then some .linkedin
  else none

/-- Content types (`ContentType` in
`src/agents/content_scheduler/models.py`). -/
inductive ContentType where
  | text
  | image
  | video
  | link
  | mixed
  deriving DecidableEq, Repr

/-- Status values for scheduled posts (`PostStatus` in
`src/agents/content_scheduler/models.py`). -/
inductive PostStatus where
  | draft
  | scheduled
  | published
  | failed
  | canceled
  deriving DecidableEq, Repr

/-- Adaptation rules for one platform (`ContentAdaptationRules`).  The
`image_requirements` dict is carried as the two keys the adapter reads,
with the defaults used by its `.get` calls. -/
structure ContentAdaptationRules where
  platform : SocialPlatform
  max_text_length : Nat
  hashtag_format : String
  image_required : Bool := false
  image_max_images : Nat := 0
  deriving DecidableEq, Repr

/-- Platform-specific adapter metadata: the two keys
`adapt_content_for_platform` can set. -/
structure AdaptMetadata where
  warning : Option String := none
  images_count : Option Nat := none
  deriving DecidableEq, Repr

/-- Content adapted for one platform (`PlatformSpecificContent`). -/
structure PlatformSpecificContent where
  platform : SocialPlatform
  text : String
  image_reference : Option String := none
  link : Option String := none
  hashtags : List String := []
  metadata : AdaptMetadata := {}
  deriving DecidableEq, Repr

/-- A scheduled post (`ScheduledPost` in
`src/agents/content_scheduler/models.py`).  `schedule_time`, `created_at`
and `updated_at` are abstract instants. -/
structure ScheduledPost where
  id : String
  user_id : String
  raw_text : String
  content_type : ContentType
  image_reference : Option String := none
  target_platforms : List String
  schedule_time : Nat
  status : PostStatus := .draft
  platform_specific_content : List (String × PlatformSpecificContent) := []
  platform_post_ids : List (String × String) := []
  credentials : List (String × List (String × String)) := []
  created_at : Nat := 0
  updated_at : Nat := 0
  deriving DecidableEq, Repr

/-- Character class of the regex `\w` (ASCII fragment). -/
def isWordChar (c : Char) : Bool :=
  (('a' ≤ c) && (c ≤ 'z')) || (('A' ≤ c) && (c ≤ 'Z')) ||
  (('0' ≤ c) && (c ≤ '9')) || (c = '_')

/-- Scan for the regex `#(\w+)` the way `re.findall` does: left to right,
non-overlapping, returning the captured groups.  The fuel argument is the
length of the scanned list; every recursive call consumes at least one
character, so the fuel never runs out. -/
def extractAux : Nat → List Char → List (List Char)
  | 0, _ => []
  | _, [] => []
  | Nat.succ fuel, c :: rest =>
    if c = '#' then
      let tag := rest.takeWhile isWordChar
      if tag = [] then extractAux fuel rest
      else tag :: extractAux fuel (rest.drop tag.length)
    else extractAux fuel rest

/-- Embedding of `extract_hashtags`
(`src/agents/content_scheduler/adapters.py` lines 16-28):
`re.findall(r'#(\w+)', text)`. -/
def extract_hashtags (s : String) : List String :=
  (extractAux s.toList.length s.toList).map List.asString

/-- Removal scan for `re.sub(r'#\w+', '', text)`: every match of `#`
followed by at least one word character is dropped, everything else is
kept. -/
def stripHashtagsAux : Nat → List Char → List Char
  | 0, cs => cs
  | _, [] => []
  | Nat.succ fuel, c :: rest =>
    if c = '#' then
      let tag := rest.takeWhile isWordChar
      if tag = [] then c :: stripHashtagsAux fuel rest
      else stripHashtagsAux fuel (rest.drop tag.length)
    else c :: stripHashtagsAux fuel rest

/-- The matched-hashtag removal `re.sub(r'#\w+', '', raw_text)` from
`adapt_content_for_platform`. -/
def stripHashtags (cs : List Char) : List Char :=
  stripHashtagsAux cs.length cs

/-- Python `str.strip()` whitespace class. -/
def pyIsSpace (c : Char) : Bool :=
  c = ' ' || c = '\t' || c = '\n' || c = '\r' || c = '\x0b' || c = '\x0c'

/-- Python `str.strip()`: drop leading and trailing whitespace. -/
def pyStrip (cs : List Char) : List Char :=
  ((cs.dropWhile pyIsSpace).reverse.dropWhile pyIsSpace).reverse

/-- Python `'text'.rfind(' ')`: index of the last space, `-1` if absent. -/
def pyRfindSpace (cs : List Char) : Int :=
  match cs.reverse.findIdx? (fun c => c = ' ') with
  | some i => (cs.length : Int) - 1 - i
  | none => -1

/-- Embedding of `truncate_text`
(`src/agents/content_scheduler/adapters.py` lines 45-71) on character
lists: keep the text when it fits, otherwise cut to `max_length`, back up
to the last space when its index is positive, and append `...` whenever
the result is shorter than the input. -/
def truncateListChar (cs : List Char) (max_length : Nat) : List Char :=
  if cs.length ≤ max_length then cs
  else
    let truncated := cs.take max_length
    let last_space := pyRfindSpace truncated
    let truncated2 := if 0 < last_space then truncated.take last_space.toNat else truncated
    if truncated2.length < cs.length then truncated2 ++ ['.', '.', '.'] else truncated2

/-- String wrapper for `truncate_text`. -/
def truncate_text (s : String) (max_length : Nat) : String :=
  (truncateListChar s.toList max_length).asString

/-- Python `hashtag_format.format(tag)` for the single-placeholder
templates the repository uses: the first brace pair is replaced by the
tag. -/
def formatHashtag (fmt : List Char) (tag : List Char) : List Char :=
  match fmt with
  | [] => []
  | '{' :: '}' :: rest => tag ++ rest
  | c :: rest => c :: formatHashtag rest tag

/-- Embedding of `format_hashtags`
(`src/agents/content_scheduler/adapters.py` lines 31-42). -/
def format_hashtags (hashtags : List String) (hashtag_format : String) : List String :=
  hashtags.map (fun tag => (formatHashtag hashtag_format.toList tag.toList).asString)

/-- The adapted text computed by `adapt_content_for_platform`
(`src/agents/content_scheduler/adapters.py` lines 92-119), as a character
list.  Follows the source line by line: extract and format hashtags,
strip them from the body, reserve `len(hashtag_text) + 1` characters of
the budget for them (falling back to `int(max_text_length / 2)` when the
reservation is negative), truncate the body, and rejoin, where
`truncated_text or hashtag_text` picks the first non-empty string. -/
def adaptedTextChars (raw_text : String) (rules : ContentAdaptationRules) : List Char :=
  let hashtags := extract_hashtags raw_text
  let formatted_hashtags := format_hashtags hashtags rules.hashtag_format
  let clean_text := pyStrip (stripHashtags raw_text.toList)
  if hashtags ≠ [] then
    let hashtag_text := List.intercalate [' '] (formatted_hashtags.map String.toList)
    let max_content_length : Int :=
      (rules.max_text_length : Int) - hashtag_text.length - 1
    let budget : Nat :=
      if max_content_length < 0 then rules.max_text_length / 2
      else max_content_length.toNat
    let truncated_text := truncateListChar clean_text budget
    if truncated_text ≠ [] ∧ hashtag_text ≠ [] then
      truncated_text ++ ' ' :: hashtag_text
    else if truncated_text ≠ [] then truncated_text
    else hashtag_text
  else truncateListChar clean_text rules.max_text_length

/-- Embedding of `adapt_content_for_platform`
(`src/agents/content_scheduler/adapters.py` lines 74-142): the adapted
text as above, the raw extracted hashtags in the `hashtags` field, the
image reference passed through, and the two platform-specific metadata
annotations. -/
def adapt_content_for_platform (raw_text : String) (image_reference : Option String)
    (platform : SocialPlatform) (rules : ContentAdaptationRules) :
    PlatformSpecificContent :=
  let metadata : AdaptMetadata :=
    { warning :=
        if platform = .instagram ∧ rules.image_required ∧ image_reference = none then
          some "Instagram requires an image for posts"
        else none,
      images_count :=
        if platform = .twitter ∧ image_reference ≠ none ∧ 0 < rules.image_max_images then
          some 1
        else none }
  { platform := platform,
    text := (adaptedTextChars raw_text rules).asString,
    image_reference := image_reference,
    hashtags := extract_hashtags raw_text,
    metadata := metadata }

/-- The agent's per-platform adaptation rules
(`ContentSchedulerAgent.__init__`, `src/agents/content_scheduler/agent.py`
lines 87-112). -/
def adaptationRules : SocialPlatform → ContentAdaptationRules
  | .twitter =>
    { platform := .twitter, max_text_length := 280,
      hashtag_format := "#\x7b\x7d", image_max_images := 4 }
  | .facebook =>
    { platform := .facebook, max_text_length := 5000,
      hashtag_format := "#\x7b\x7d" }
  | .instagram =>
    { platform := .instagram, max_text_length := 2200,
      hashtag_format := "#\x7b\x7d", image_required := true }
  | .linkedin =>
    { platform := .linkedin, max_text_length := 3000,
      hashtag_format := "#\x7b\x7d" }

/-- A deferred job in the APScheduler job store: one entry per job id,
holding the `run_date` and the single positional argument (the post
id). -/
structure SchedJob where
  run_date : Nat
  arg : String
  deriving DecidableEq, Repr

/-- Embedding of `_schedule_post_publication`
(`src/agents/content_scheduler/agent.py` lines 282-308): a `date` job with
id `publish_post_` ++ post id is added with `replace_existing=True`, which
is a keyed upsert on the job store. -/
def schedulePostPublication (jobs : List (String × SchedJob)) (post : ScheduledPost) :
    List (String × SchedJob) :=
  dictUpsert ("publish_post_" ++ post.id) ⟨post.schedule_time, post.id⟩ jobs

/-- Embedding of `publish_post_wrapper` (the scheduler's firing callback,
`src/agents/content_scheduler/agent.py` lines 293-298): append the post id
to the publish queue and return. -/
def publishPostWrapper (queue : List String) (post_id : String) : List String :=
  queue ++ [post_id]

/-- One primitive step of a drain pass.  The loop body in
`process_publish_queue` (`src/agents/content_scheduler/agent.py`
lines 468-471 and 482-485) does `await self._publish_post(post_id)` and
then `self._publish_queue.remove(post_id)`; the `await` is the only point
where another drain pass can interleave, so each loop iteration splits
into these two atomic steps. -/
inductive DrainInstr where
  | invoke (post_id : String)
  | removeEntry (post_id : String)
  deriving DecidableEq, Repr

/-- Observable state of the queue-and-drain bridge: the shared publish
queue and the ordered log of publish-handler invocations. -/
structure DrainState where
  queue : List String
  log : List String
  deriving DecidableEq, Repr

/-- Python `list.remove`: drop the first occurrence; the `ValueError` on a
missing element is swallowed by the surrounding `try` in the source, so an
absent element leaves the list unchanged. -/
def removeFirstOcc (xs : List String) (x : String) : List String :=
  match xs with
  | [] => []
  | y :: rest => if y = x then rest else y :: removeFirstOcc rest x

/-- Execute one drain step against the shared state. -/
def execDrainInstr (s : DrainState) : DrainInstr → DrainState
  | .invoke pid => { s with log := s.log ++ [pid] }
  | .removeEntry pid => { s with queue := removeFirstOcc s.queue pid }

/-- The instruction sequence of one drain pass over a queue snapshot
(`for post_id in list(self._publish_queue)` iterates over a copy taken at
pass entry): the handler is invoked first, the entry removed after. -/
def passInstrs (snapshot : List String) : List DrainInstr :=
  (snapshot.map (fun pid => [DrainInstr.invoke pid, DrainInstr.removeEntry pid])).flatten

/-- One drain pass run to completion with no interleaving: snapshot the
queue, then execute its instructions in order. -/
def runDrainPass (s : DrainState) : DrainState :=
  (passInstrs s.queue).foldl execDrainInstr s

/-- Mutable state owned by the Content Scheduler agent: the post store,
the APScheduler job store and the Mongo task store. -/
structure SchedState where
  posts : List (String × ScheduledPost)
  jobs : List (String × SchedJob)
  taskStore : List (String × Task)
  deriving DecidableEq, Repr

/-- The `try` body of `_handle_process_schedule_post`
(`src/agents/content_scheduler/agent.py` lines 164-273), returning the
raised `ValueError` message on the error path.  External collaborators are
parameters: `parseTime` is `datetime.fromisoformat` on the `Z`-normalised
string, `newPostId` the `generate_id()` result, `imageSaveOk` the
`decode_image` outcome. -/
def processSchedulePostCore (parseTime : String → Option Nat) (newPostId : String)
    (imageSaveOk : Bool) (st : SchedState) (t : Task) (now : Nat) :
    Except String (Task × SchedState) :=
  match extract_data_part_by_content_type t.data_parts "application/json" with
  | none => .error "No content data found in task"
  | some data_part =>
    let data := data_part.data
    if ¬ optTruthy data.user_id then .error "user_id is required"
    else if ¬ optTruthy data.raw_text then .error "raw_text is required"
    else if data.target_platforms = [] then .error "target_platforms is required"
    else if ¬ optTruthy data.schedule_time then .error "schedule_time is required"
    else
      let platform_list := data.target_platforms.filterMap parsePlatform
      if platform_list = [] then .error "No valid target platforms specified"
      else
        match parseTime (data.schedule_time.getD "") with
        | none => .error ("Invalid schedule time format: " ++ data.schedule_time.getD "")
        | some schedule_time =>
          let user_id := data.user_id.getD ""
          let raw_text := data.raw_text.getD ""
          let hasImage := optTruthy data.image_data
          let content_type := if hasImage then ContentType.image else ContentType.text
          let image_reference :=
            if hasImage ∧ imageSaveOk then some ("./media/" ++ newPostId ++ ".jpg")
            else none
          let post0 : ScheduledPost :=
            { id := newPostId, user_id := user_id, raw_text := raw_text,
              content_type := content_type, image_reference := image_reference,
              target_platforms := platform_list.map SocialPlatform.val,
              schedule_time := schedule_time, status := .scheduled,
              created_at := now, updated_at := now }
          let post1 :=
            if data.social_media_credentials ≠ [] then
              { post0 with credentials := data.social_media_credentials }
            else post0
          let adapted :=
            platform_list.foldl (fun acc p =>
              dictUpsert p.val
                (adapt_content_for_platform raw_text image_reference p (adaptationRules p))
                acc) []
          let post2 := { post1 with platform_specific_content := adapted }
          let posts' := dictUpsert newPostId post2 st.posts
          let jobs' := schedulePostPublication st.jobs post2
          let taskStore' := saveTask st.taskStore t
          let metadata' :=
            dictUpsert "schedule_time" (toString schedule_time)
              (dictUpsert "post_id" newPostId t.metadata)
          let t' := { t with metadata := metadata' }
          .ok (t', ⟨posts', jobs', taskStore'⟩)

/-- Embedding of `_handle_process_schedule_post` including its `except`
clause: a validation failure is caught inside the handler, which records
the message under `metadata["error"]`, marks the task `failed`, and
returns normally — no exception escapes to `_process_task` (the third
component is the escaping exception, always `none` here). -/
def handleProcessSchedulePost (parseTime : String → Option Nat) (newPostId : String)
    (imageSaveOk : Bool) (t : Task) (st : SchedState) (now : Nat) :
    Task × SchedState × Option String :=
  match processSchedulePostCore parseTime newPostId imageSaveOk st t now with
  | .ok (t', st') => (t', st', none)
  | .error e => ((t.setError e).update_status .failed now, st, none)

/-- Embedding of `_process_task` (`src/core/agent.py` lines 189-208) over
a handler that may mutate the task and the agent state and may let an
exception (its message string) escape: on normal return the task is
stamped `completed`, on an escaped exception it is stamped `failed` and
the message stored under `metadata["error"]`. -/
def processTask
    (handler : Task → SchedState → Nat → Task × SchedState × Option String)
    (t : Task) (st : SchedState) (now : Nat) : Task × SchedState :=
  match handler t st now with
  | (t', st', none) => (t'.update_status .completed now, st')
  | (t', st', some e) => ((t'.update_status .failed now).setError e, st')

/-- The receive-and-process flow: `POST /tasks` accepting the task via
`_handle_incoming_task`, then the background `_process_task` run on the
same (aliased) task object, whose final state the task map reflects. -/
def receiveAndProcess (agentId : String) (handlerTypes : List String)
    (handler : Task → SchedState → Nat → Task × SchedState × Option String)
    (tasks : List (String × Task)) (st : SchedState) (t : Task) (now : Nat) :
    List (String × Task) × SchedState × Except (Nat × String) Task :=
  match handleIncomingTask agentId handlerTypes tasks t now with
  | (tasks', .error e) => (tasks', st, .error e)
  | (tasks', .ok t') =>
    let (t'', st') := processTask handler t' st now
    (dictUpsert t.id t'' tasks', st', .ok t'')

/-- Observable effects of `_publish_post`, in program order: the post-store
save, then one dispatch (or caught dispatch failure) per platform. -/
inductive PublishEffect where
  | save (p : ScheduledPost)
  | dispatch (target : String) (post_id : String) (platform : String)
  | dispatchError (target : String) (post_id : String) (platform : String)
  deriving DecidableEq, Repr

/-- Embedding of `_publish_post` (`src/agents/content_scheduler/agent.py`
lines 312-379): load the post (no-op when absent), set its status to
`published`, save it, and only then send one `publish_post` task per
target platform that has adapted content, with send exceptions caught per
platform (`sendOk` tells which sends succeed).  Returns the new post store
and the ordered effect trace. -/
def publishPost (posts : List (String × ScheduledPost)) (post_id : String) (now : Nat)
    (sendOk : String → Bool) : List (String × ScheduledPost) × List PublishEffect :=
  match dictGet post_id posts with
  | none => (posts, [])
  | some post =>
    let post' := { post with status := .published, updated_at := now }
    let posts' := dictUpsert post_id post' posts
    let effects := post'.target_platforms.filterMap (fun platform =>
      match dictGet platform post'.platform_specific_content with
      | none => none
      | some _ =>
        let target := pyLower platform ++ "-posting-agent"
        some (if sendOk platform then PublishEffect.dispatch target post_id platform
              else PublishEffect.dispatchError target post_id platform))
    (posts', PublishEffect.save post' :: effects)

/-- The `try` body of `_handle_post_status_update`
(`src/agents/content_scheduler/agent.py` lines 381-428): after field
validation and post lookup, a `success` update with a truthy
`platform_post_id` records the platform post id; a `failure` update only
logs; in both cases only `updated_at` is re-stamped and the post saved.
The post's `status` field is never written. -/
def handlePostStatusUpdateCore (st : SchedState) (t : Task) (now : Nat) :
    Except String SchedState :=
  match extract_data_part_by_content_type t.data_parts "application/json" with
  | none => .error "No content data found in task"
  | some data_part =>
    let data := data_part.data
    if ¬ optTruthy data.socialspark_post_id then .error "socialspark_post_id is required"
    else if ¬ optTruthy data.platform then .error "platform is required"
    else if ¬ optTruthy data.status then .error "status is required"
    else
      let post_id := data.socialspark_post_id.getD ""
      match dictGet post_id st.posts with
      | none => .ok st
      | some post =>
        let ids' :=
          dictUpsert (data.platform.getD "") (data.platform_post_id.getD "")
            post.platform_post_ids
        let post1 :=
          if data.status = some "success" ∧ optTruthy data.platform_post_id then
            { post with platform_post_ids := ids' }
          else post
        let post2 := { post1 with updated_at := now }
        let posts' := dictUpsert post_id post2 st.posts
        let taskStore' := saveTask st.taskStore t
        .ok { st with posts := posts', taskStore := taskStore' }

/-- Embedding of `_handle_post_status_update` including its `except`
clause (same catch structure as the other handler). -/
def handlePostStatusUpdate (t : Task) (st : SchedState) (now : Nat) :
    Task × SchedState × Option String :=
  match handlePostStatusUpdateCore st t now with
  | .ok st' => (t, st', none)
  | .error e => ((t.setError e).update_status .failed now, st, none)

/-- Effects other than the post-store save in a `_publish_post` trace. -/
def PublishEffect.isDispatchLike : PublishEffect → Bool
  | .save _ => false
  | .dispatch _ _ _ => true
  | .dispatchError _ _ _ => true

/-- Chars-to-formatted-hashtag-text: the `" ".join(formatted_hashtags)`
value inside `adapt_content_for_platform`, as a character list. -/
def hashtagChars (rules : ContentAdaptationRules) (raw_text : String) : List Char :=
  List.intercalate [' ']
    ((format_hashtags (extract_hashtags raw_text) rules.hashtag_format).map String.toList)

/-- Length of the formatted hashtag text. -/
def hashtagTextLen (rules : ContentAdaptationRules) (raw_text : String) : Nat :=
  (hashtagChars rules raw_text).length

/-- The final join of `adapt_content_for_platform`: body and hashtag text
separated by a space when both are non-empty, otherwise
`truncated_text or hashtag_text`. -/
def joinBody (body ht : List Char) : List Char :=
  if body ≠ [] ∧ ht ≠ [] then body ++ ' ' :: ht
  else if body ≠ [] then body
  else ht

/-- An empty scheduler state. -/
def stEmpty : SchedState := ⟨[], [], []⟩

/-- A task already in the terminal state `completed`. -/
def taskDone : Task :=
  { id := "t1", type := "demo", status := .completed,
    source_agent_id := "a", target_agent_id := "b" }

/-- A fresh task addressed to agent `agent` with registered type `demo`. -/
def wTaskOk : Task :=
  { id := "w1", type := "demo", source_agent_id := "src", target_agent_id := "agent" }

/-- A fresh task addressed to a different agent. -/
def wTaskMismatch : Task :=
  { id := "w2", type := "demo", source_agent_id := "src", target_agent_id := "other" }

/-- JSON payload of a `process_and_schedule_post` task that is missing its
required `user_id` field. -/
def c4Part : DataPart :=
  { id := "p1", content_type := "application/json",
    data := { raw_text := some "hello", target_platforms := ["twitter"],
              schedule_time := some "2025-01-01T00:00:00Z" } }

/-- A `process_and_schedule_post` task whose payload fails validation. -/
def c4Task : Task :=
  { id := "t4", type := "process_and_schedule_post",
    source_agent_id := "user-input-agent",
    target_agent_id := "content-scheduler-agent", data_parts := [c4Part] }

/-- A post scheduled at time 10. -/
def postA : ScheduledPost :=
  { id := "p", user_id := "u", raw_text := "x", content_type := .text,
    target_platforms := ["twitter"], schedule_time := 10, status := .scheduled }

/-- The same post re-registered at the later time 20. -/
def postB : ScheduledPost :=
  { id := "p", user_id := "u", raw_text := "x", content_type := .text,
    target_platforms := ["twitter"], schedule_time := 20, status := .scheduled }

/-- Twitter-shaped adaptation rules with a 10-character limit. -/
def c7Rules : ContentAdaptationRules :=
  { platform := .twitter, max_text_length := 10, hashtag_format := "#\x7b\x7d" }

/-- Adapted Twitter content for the publish fixture. -/
def pubContent : PlatformSpecificContent :=
  { platform := .twitter, text := "hi" }

/-- A scheduled post ready for publication on Twitter. -/
def pubPost : ScheduledPost :=
  { id := "pp", user_id := "u", raw_text := "hi", content_type := .text,
    target_platforms := ["twitter"], schedule_time := 10, status := .scheduled,
    platform_specific_content := [("twitter", pubContent)] }

/-- Payload of a `post_status_update` task reporting a `failure` outcome
for `pubPost` on Twitter. -/
def failurePartData : PartData :=
  { socialspark_post_id := some "pp", platform := some "twitter",
    status := some "failure", error_message := some "boom" }

/-- A `post_status_update` task reporting a `failure` outcome for
`pubPost` on Twitter. -/
def failureUpdateTask : Task :=
  { id := "tu", type := "post_status_update",
    source_agent_id := "facebook-posting-agent",
    target_agent_id := "content-scheduler-agent",
    data_parts := [⟨"du", "application/json", failurePartData⟩] }

theorem length_asString (l : List Char) : (List.asString l).length = l.length := rfl

theorem dictGet_upsert {α : Type} (k k' : String) (v : α) (m : List (String × α)) :
    dictGet k' (dictUpsert k v m) = if k = k' then some v else dictGet k' m := by
  induction m with
  | nil => simp [dictUpsert, dictGet]
  | cons hd tl ih =>
    obtain ⟨k0, v0⟩ := hd
    by_cases h0 : k0 = k
    · subst h0
      simp [dictUpsert, dictGet]
      by_cases h1 : k0 = k'
      · simp [h1]
      · simp [h1]
    · simp [dictUpsert, h0, dictGet]
      by_cases h1 : k0 = k'
      · subst h1
        have : ¬ k = k0 := fun h => h0 h.symm
        simp [this]
      · simp [h1, ih]

theorem dictGet_upsert_self {α : Type} (k : String) (v : α) (m : List (String × α)) :
    dictGet k (dictUpsert k v m) = some v := by
  simp [dictGet_upsert]

theorem dictUpsert_idem {α : Type} (k : String) (v : α) (m : List (String × α)) :
    dictUpsert k v (dictUpsert k v m) = dictUpsert k v m := by
  induction m with
  | nil => simp [dictUpsert]
  | cons hd tl ih =>
    obtain ⟨k0, v0⟩ := hd
    by_cases h0 : k0 = k
    · subst h0
      simp [dictUpsert]
    · simp [dictUpsert, h0, ih]

theorem countKey_cons {α : Type} (k k0 : String) (v0 : α) (tl : List (String × α)) :
    countKey k ((k0, v0) :: tl) = (if k0 = k then 1 else 0) + countKey k tl := by
  by_cases h : k0 = k
  · simp [countKey, List.filter_cons, h]
    omega
  · simp [countKey, List.filter_cons, h]

theorem countKey_upsert_self {α : Type} (k : String) (v : α) (m : List (String × α)) :
    countKey k (dictUpsert k v m) = if countKey k m = 0 then 1 else countKey k m := by
  induction m with
  | nil => simp [dictUpsert, countKey]
  | cons hd tl ih =>
    obtain ⟨k0, v0⟩ := hd
    by_cases h0 : k0 = k
    · subst h0
      simp [dictUpsert, countKey_cons]
    · simp [dictUpsert, h0, countKey_cons, ih]

theorem truncateListChar_length_le (cs : List Char) (m : Nat) :
    (truncateListChar cs m).length ≤ m + 3 := by
  unfold truncateListChar
  dsimp only
  split_ifs <;>
    (try simp only [List.length_append, List.length_take, List.length_cons,
      List.length_nil]) <;>
    omega

theorem truncateListChar_ellipsis (cs : List Char) (m : Nat) (h : m < cs.length) :
    ∃ pre, truncateListChar cs m = pre ++ ['.', '.', '.'] ∧ pre.length ≤ m := by
  unfold truncateListChar
  dsimp only
  have hnot : ¬ cs.length ≤ m := by omega
  rw [if_neg hnot]
  by_cases hsp : 0 < pyRfindSpace (List.take m cs)
  · rw [if_pos hsp]
    have hlen : (List.take (pyRfindSpace (List.take m cs)).toNat (List.take m cs)).length ≤ m := by
      simp only [List.length_take]
      omega
    rw [if_pos (by omega)]
    exact ⟨_, rfl, hlen⟩
  · rw [if_neg hsp]
    have hlen : (List.take m cs).length ≤ m := by
      simp only [List.length_take]
      omega
    rw [if_pos (by omega)]
    exact ⟨_, rfl, hlen⟩

theorem handlePostStatusUpdateCore_preserves_status (u : Task) (st : SchedState) (now : Nat)
    (qid : String) (st' : SchedState) (hres : handlePostStatusUpdateCore st u now = .ok st') :
    (dictGet qid st'.posts).map ScheduledPost.status =
      (dictGet qid st.posts).map ScheduledPost.status := by
  unfold handlePostStatusUpdateCore at hres
  rcases hx : extract_data_part_by_content_type u.data_parts "application/json" with _ | data_part
  · rw [hx] at hres
    simp at hres
  · rw [hx] at hres
    dsimp only at hres
    split_ifs at hres with h1 h2 h3 h4
    all_goals
      first
        | exact Except.noConfusion hres
        | (rcases hpost : dictGet (data_part.data.socialspark_post_id.getD "") st.posts with _ | post
           · rw [hpost] at hres
             dsimp only at hres
             injection hres with hst
             rw [← hst]
           · rw [hpost] at hres
             dsimp only at hres
             injection hres with hst
             rw [← hst]
             dsimp only
             rw [dictGet_upsert]
             split_ifs with hq
             · rw [← hq, hpost]
               rfl
             · rfl)

theorem handlePostStatusUpdate_preserves_status (u : Task) (st : SchedState) (now : Nat)
    (qid : String) :
    (dictGet qid (handlePostStatusUpdate u st now).2.1.posts).map ScheduledPost.status =
      (dictGet qid st.posts).map ScheduledPost.status := by
  unfold handlePostStatusUpdate
  cases hres : handlePostStatusUpdateCore st u now with
  | error e => rfl
  | ok st' => exact handlePostStatusUpdateCore_preserves_status u st now qid st' hres

/-- C1: the claim that no operation moves a task out of a terminal state
fails on the code.  A task already `completed` (a terminal state, and
`completed → pending` is not an edge of the spec state machine) is moved
back to `pending` by the `PATCH /tasks/t1` route, because
`Task.update_status` overwrites the status without any transition
check. -/
theorem c1_counterexample :
    TaskStatus.isTerminal taskDone.status = true ∧
    specAllowedEdge TaskStatus.completed TaskStatus.pending = false ∧
    update_task [("t1", taskDone)] "t1" TaskStatus.pending 5 =
      Except.ok ([("t1", taskDone.update_status TaskStatus.pending 5)],
        taskDone.update_status TaskStatus.pending 5) ∧
    (taskDone.update_status TaskStatus.pending 5).status = TaskStatus.pending := by
  refine ⟨by decide, by decide, rfl, by decide⟩

/-- C1 (amended): `Task.update_status` — and the `PATCH /tasks/task_id`
endpoint that routes status updates through it — overwrites the status
field unconditionally, so any state, terminal states included, can move to
any other state; only the background completion in `_process_task` is
restricted, always leaving the task in `completed` or `failed`. -/
theorem c1_amended (t : Task) (v : TaskStatus) (now : Nat) :
    (t.update_status v now).status = v ∧
    ∀ (handler : Task → SchedState → Nat → Task × SchedState × Option String)
      (st : SchedState),
      (processTask handler t st now).1.status = TaskStatus.completed ∨
      (processTask handler t st now).1.status = TaskStatus.failed := by
  refine ⟨rfl, ?_⟩
  intro handler st
  unfold processTask
  rcases hh : handler t st now with ⟨t', st', e⟩
  cases e with
  | none => exact Or.inl rfl
  | some s => exact Or.inr rfl

/-- C2: the claim fails on the code.  The drain loop invokes the publish
handler for an entry and only removes the entry from the queue after the
invocation returns (`passInstrs` puts `invoke` before `removeEntry`), so
when a second drain pass snapshots the queue while the first pass is
suspended in its `await`, the handler runs twice for a post id that a
single scheduler firing enqueued once: the concrete interleaving below
logs two invocations of the handler for post `p1`, where the claim
requires exactly one. -/
theorem c2_counterexample :
    (execDrainInstr (runDrainPass (execDrainInstr ⟨["p1"], []⟩ (DrainInstr.invoke "p1")))
        (DrainInstr.removeEntry "p1")).log.count "p1" = 2 ∧
    passInstrs ["p1"] = [DrainInstr.invoke "p1", DrainInstr.removeEntry "p1"] := by
  decide

/-- C2 (amended): for a post id enqueued once by a single Scheduler
firing, each drain pass invokes the publish handler before removing the
queue entry (not after removal, as claimed); when the drain passes run
sequentially — each pass completing before the next snapshots the queue —
the handler is invoked exactly once for that post id and the queue is left
empty, a second pass being a no-op; only passes interleaved across the
handler `await` can double-invoke. -/
theorem c2_amended (pid : String) :
    passInstrs [pid] = [DrainInstr.invoke pid, DrainInstr.removeEntry pid] ∧
    (runDrainPass ⟨[pid], []⟩).log.count pid = 1 ∧
    (runDrainPass ⟨[pid], []⟩).queue = [] ∧
    runDrainPass (runDrainPass ⟨[pid], []⟩) = runDrainPass ⟨[pid], []⟩ := by
  have h1 : passInstrs [pid] = [DrainInstr.invoke pid, DrainInstr.removeEntry pid] := by
    simp [passInstrs]
  have h2 : runDrainPass ⟨[pid], []⟩ = ⟨[], [pid]⟩ := by
    unfold runDrainPass
    rw [h1]
    simp [execDrainInstr, removeFirstOcc]
  refine ⟨h1, ?_, ?_, ?_⟩
  · rw [h2]
    simp
  · rw [h2]
  · rw [h2]
    unfold runDrainPass
    simp [passInstrs]

/-- C3: registering a deferred publication job twice for the same post id
yields exactly one pending job under the derived job id, due at the later
registration's schedule time, because `_schedule_post_publication` uses
the deterministic job id `publish_post_` ++ post id and
`replace_existing=True`. -/
theorem c3_replaces_job (jobs : List (String × SchedJob)) (p1 p2 : ScheduledPost)
    (hid : p1.id = p2.id)
    (hcount : countKey ("publish_post_" ++ p2.id) jobs ≤ 1) :
    countKey ("publish_post_" ++ p2.id)
        (schedulePostPublication (schedulePostPublication jobs p1) p2) = 1 ∧
    dictGet ("publish_post_" ++ p2.id)
        (schedulePostPublication (schedulePostPublication jobs p1) p2) =
      some ⟨p2.schedule_time, p2.id⟩ := by
  unfold schedulePostPublication
  rw [hid]
  constructor
  · rw [countKey_upsert_self, countKey_upsert_self]
    split_ifs <;> omega
  · exact dictGet_upsert_self _ _ _

/-- C3 witness: scheduling `postA` (due 10) then `postB` (same id, due 20)
into an empty job store leaves exactly one job, due at 20. -/
theorem c3_witness :
    countKey ("publish_post_" ++ postB.id)
        (schedulePostPublication (schedulePostPublication [] postA) postB) = 1 ∧
    dictGet ("publish_post_" ++ postB.id)
        (schedulePostPublication (schedulePostPublication [] postA) postB) =
      some ⟨postB.schedule_time, postB.id⟩ :=
  c3_replaces_job [] postA postB rfl (by decide)

/-- C4: evaluation of the code at the failing input.  A
`process_and_schedule_post` task missing its required `user_id` ends the
receive-and-process flow in status `completed`, not `failed`: the handler
catches the `ValueError`, records it in metadata and marks the task
`failed`, but returns normally, so `_process_task` overwrites the status
with `completed`. -/
theorem c4_code_bug :
    (dictGet "t4" (receiveAndProcess "content-scheduler-agent"
        ["process_and_schedule_post", "post_status_update"]
        (handleProcessSchedulePost (fun _ => none) "post-1" true)
        [] stEmpty c4Task 7).1).map Task.status = some TaskStatus.completed ∧
    (dictGet "t4" (receiveAndProcess "content-scheduler-agent"
        ["process_and_schedule_post", "post_status_update"]
        (handleProcessSchedulePost (fun _ => none) "post-1" true)
        [] stEmpty c4Task 7).1).map (fun u => dictGet "error" u.metadata) =
      some (some "user_id is required") := by
  decide

/-- C5: `_handle_incoming_task` rejects with HTTP 400 a task whose
`target_agent_id` differs from the agent's id, rejects with HTTP 400 a
task whose type has no registered handler, and in both rejection cases
leaves the task map unchanged; otherwise it stores the task keyed by its
id, transitions it to `in_progress`, and returns it with status
`in_progress`. -/
theorem c5_receive_contract (agentId : String) (handlerTypes : List String)
    (tasks : List (String × Task)) (t : Task) (now : Nat) :
    (t.target_agent_id ≠ agentId →
      handleIncomingTask agentId handlerTypes tasks t now =
        (tasks, Except.error (400, "Task target " ++ t.target_agent_id ++
          " does not match this agent (" ++ agentId ++ ")"))) ∧
    (t.target_agent_id = agentId → handlerTypes.contains t.type = false →
      handleIncomingTask agentId handlerTypes tasks t now =
        (tasks, Except.error (400, "No handler for task type: " ++ t.type))) ∧
    (t.target_agent_id = agentId → handlerTypes.contains t.type = true →
      handleIncomingTask agentId handlerTypes tasks t now =
        (dictUpsert t.id (t.update_status TaskStatus.in_progress now) tasks,
          Except.ok (t.update_status TaskStatus.in_progress now)) ∧
      (t.update_status TaskStatus.in_progress now).status = TaskStatus.in_progress ∧
      dictGet t.id (dictUpsert t.id (t.update_status TaskStatus.in_progress now) tasks) =
        some (t.update_status TaskStatus.in_progress now)) := by
  refine ⟨?_, ?_, ?_⟩
  · intro h
    simp [handleIncomingTask, h]
  · intro h1 h2
    have h2' : t.type ∉ handlerTypes := by simpa using h2
    simp [handleIncomingTask, h1, h2']
  · intro h1 h2
    have h2' : t.type ∈ handlerTypes := by simpa using h2
    refine ⟨?_, rfl, dictGet_upsert_self _ _ _⟩
    simp [handleIncomingTask, h1, h2']

/-- C5 witness: the three branches at concrete inputs — a mismatched
target, a missing handler, and an accepted task. -/
theorem c5_witness :
    handleIncomingTask "agent" ["demo"] [] wTaskMismatch 3 =
      ([], Except.error (400, "Task target " ++ wTaskMismatch.target_agent_id ++
        " does not match this agent (" ++ "agent" ++ ")")) ∧
    handleIncomingTask "agent" [] [] wTaskOk 3 =
      ([], Except.error (400, "No handler for task type: " ++ wTaskOk.type)) ∧
    handleIncomingTask "agent" ["demo"] [] wTaskOk 3 =
      (dictUpsert wTaskOk.id (wTaskOk.update_status TaskStatus.in_progress 3) [],
        Except.ok (wTaskOk.update_status TaskStatus.in_progress 3)) :=
  ⟨(c5_receive_contract "agent" ["demo"] [] wTaskMismatch 3).1 (by decide),
   (c5_receive_contract "agent" [] [] wTaskOk 3).2.1 (by decide) (by decide),
   ((c5_receive_contract "agent" ["demo"] [] wTaskOk 3).2.2 (by decide) (by decide)).1⟩

/-- C6: the claim fails on the code in one detail.  A handler that raises
an exception whose message is the empty string (Python
`raise Exception("")`, for which `str(e)` is `""`) leaves the task in
`failed` with `metadata["error"]` set to the empty string — the metadata
holds the error key, but its message is empty, where the claim requires a
non-empty message. -/
theorem c6_counterexample :
    (processTask (fun u v _ => (u, v, some "")) wTaskMismatch stEmpty 4).1.status =
      TaskStatus.failed ∧
    dictGet "error"
        (processTask (fun u v _ => (u, v, some "")) wTaskMismatch stEmpty 4).1.metadata =
      some "" := by
  exact ⟨rfl, by decide⟩

/-- C6 (amended): if the handler raises, then after `_process_task`
returns the task's status is `failed` — never `in_progress` — and
`task.metadata` holds exactly the exception's message string under the
`error` key (so the message is non-empty whenever the exception's message
is). -/
theorem c6_amended
    (handler : Task → SchedState → Nat → Task × SchedState × Option String)
    (t : Task) (st : SchedState) (now : Nat) (t' : Task) (st' : SchedState) (e : String)
    (h : handler t st now = (t', st', some e)) :
    (processTask handler t st now).1.status = TaskStatus.failed ∧
    dictGet "error" (processTask handler t st now).1.metadata = some e := by
  unfold processTask
  rw [h]
  exact ⟨rfl, dictGet_upsert_self _ _ _⟩

/-- C6 witness: a handler raising `boom` at a concrete task. -/
theorem c6_witness :
    (processTask (fun u v _ => (u, v, some "boom")) wTaskOk stEmpty 4).1.status =
      TaskStatus.failed ∧
    dictGet "error"
        (processTask (fun u v _ => (u, v, some "boom")) wTaskOk stEmpty 4).1.metadata =
      some "boom" :=
  c6_amended (fun u v _ => (u, v, some "boom")) wTaskOk stEmpty 4 wTaskOk stEmpty "boom" rfl

/-- C7: the claim fails on the code.  With a 10-character limit and body
`aaaa bcdefghij` plus hashtag `#tag`, the adapter truncates the body at
the word boundary and appends the ellipsis, but the appended `...` makes
the adapted text 12 characters long — more than `max_text_length` — so
the claimed `length ≤ max_text_length` bound is false. -/
theorem c7_counterexample :
    (adapt_content_for_platform "aaaa bcdefghij #tag" none SocialPlatform.twitter
        c7Rules).text = "aaaa... #tag" ∧
    c7Rules.max_text_length = 10 ∧
    c7Rules.max_text_length <
      ((adapt_content_for_platform "aaaa bcdefghij #tag" none SocialPlatform.twitter
        c7Rules).text).length := by
  refine ⟨by decide, by decide, by decide⟩

/-- C7 (amended): when hashtags are present and they fit the budget
(formatted hashtag text plus one separator at most `max_text_length`), the
adapted text has length at most `max_text_length + 3` — the appended
ellipsis marker may overflow the limit by up to its own three characters;
when the hashtags alone exceed the limit, the body budget falls back to
half the platform's max length; and whenever the body exceeds its budget,
`truncate_text` produces a prefix of the budgeted cut (at the last space
when its index is positive) followed by the `...` ellipsis marker. -/
theorem c7_amended (raw_text : String) (image_reference : Option String)
    (platform : SocialPlatform) (rules : ContentAdaptationRules)
    (h : extract_hashtags raw_text ≠ []) :
    (hashtagTextLen rules raw_text + 1 ≤ rules.max_text_length →
      ((adapt_content_for_platform raw_text image_reference platform rules).text).length ≤
        rules.max_text_length + 3) ∧
    (rules.max_text_length < hashtagTextLen rules raw_text + 1 →
      adaptedTextChars raw_text rules =
        joinBody
          (truncateListChar (pyStrip (stripHashtags raw_text.toList))
            (rules.max_text_length / 2))
          (hashtagChars rules raw_text)) ∧
    (∀ (cs : List Char) (m : Nat), m < cs.length →
      ∃ pre, truncateListChar cs m = pre ++ ['.', '.', '.'] ∧ pre.length ≤ m) := by
  refine ⟨?_, ?_, fun cs m hm => truncateListChar_ellipsis cs m hm⟩
  · intro hle
    show ((adaptedTextChars raw_text rules).asString).length ≤ rules.max_text_length + 3
    rw [length_asString]
    unfold adaptedTextChars
    dsimp only
    rw [if_pos h]
    unfold hashtagTextLen hashtagChars at hle
    have hneg : ¬ (((rules.max_text_length : Int) -
        (List.intercalate [' ']
          ((format_hashtags (extract_hashtags raw_text) rules.hashtag_format).map
            String.toList)).length - 1) < 0) := by
      omega
    rw [if_neg hneg]
    have htr := truncateListChar_length_le (pyStrip (stripHashtags raw_text.toList))
      (((rules.max_text_length : Int) -
        (List.intercalate [' ']
          ((format_hashtags (extract_hashtags raw_text) rules.hashtag_format).map
            String.toList)).length - 1).toNat)
    split_ifs with hb hc
    · simp only [List.length_append, List.length_cons]
      omega
    · omega
    · omega
  · intro hgt
    unfold adaptedTextChars joinBody
    dsimp only
    rw [if_pos h]
    unfold hashtagTextLen hashtagChars at hgt
    have hneg : (((rules.max_text_length : Int) -
        (List.intercalate [' ']
          ((format_hashtags (extract_hashtags raw_text) rules.hashtag_format).map
            String.toList)).length - 1) < 0) := by
      omega
    rw [if_pos hneg]
    rfl

/-- C7 witness: the in-budget case at a concrete input. -/
theorem c7_witness :
    ((adapt_content_for_platform "Hello #world #test" none SocialPlatform.twitter
        (adaptationRules SocialPlatform.twitter)).text).length ≤
      (adaptationRules SocialPlatform.twitter).max_text_length + 3 :=
  (c7_amended "Hello #world #test" none SocialPlatform.twitter
    (adaptationRules SocialPlatform.twitter) (by decide)).1 (by decide)

/-- C8: adapting `Hello #world #test` for a 280-character platform with
hashtag template `#` ++ braces yields the cleaned body `Hello`, the
formatted hashtags `#world` and `#test`, and the adapted text
`Hello #world #test`. -/
theorem c8_adapt_example :
    (adapt_content_for_platform "Hello #world #test" none SocialPlatform.twitter
        (adaptationRules SocialPlatform.twitter)).text = "Hello #world #test" ∧
    format_hashtags (extract_hashtags "Hello #world #test")
        (adaptationRules SocialPlatform.twitter).hashtag_format = ["#world", "#test"] ∧
    (pyStrip (stripHashtags ("Hello #world #test").toList)).asString = "Hello" ∧
    truncate_text ((pyStrip (stripHashtags ("Hello #world #test").toList)).asString)
        ((adaptationRules SocialPlatform.twitter).max_text_length -
          hashtagTextLen (adaptationRules SocialPlatform.twitter) "Hello #world #test" - 1) =
      "Hello" := by
  refine ⟨by decide, by decide, by decide, by decide⟩

/-- C9: receiving the same task twice is idempotent under the store's
replacement semantics — the task map after the second receive equals the
map after the first, with at most one record for the task id — and
`TaskStorage.save_task` is a keyed upsert, so saving the same task twice
leaves the store equal to saving it once. -/
theorem c9_receive_idempotent (agentId : String) (handlerTypes : List String)
    (tasks store : List (String × Task)) (t : Task) (now : Nat)
    (hc : countKey t.id tasks ≤ 1) :
    (handleIncomingTask agentId handlerTypes
        (handleIncomingTask agentId handlerTypes tasks t now).1 t now).1 =
      (handleIncomingTask agentId handlerTypes tasks t now).1 ∧
    countKey t.id (handleIncomingTask agentId handlerTypes tasks t now).1 ≤ 1 ∧
    saveTask (saveTask store t) t = saveTask store t := by
  refine ⟨?_, ?_, dictUpsert_idem _ _ _⟩
  · by_cases h1 : t.target_agent_id ≠ agentId
    · simp [handleIncomingTask, h1]
    · by_cases h2 : t.type ∈ handlerTypes
      · simp [handleIncomingTask, h1, h2, dictUpsert_idem]
      · simp [handleIncomingTask, h1, h2]
  · by_cases h1 : t.target_agent_id ≠ agentId
    · simpa [handleIncomingTask, h1] using hc
    · by_cases h2 : t.type ∈ handlerTypes
      · simp [handleIncomingTask, h1, h2, countKey_upsert_self]
        split_ifs <;> omega
      · simpa [handleIncomingTask, h1, h2] using hc

/-- C9 witness: receiving `wTaskOk` twice into an empty map and saving it
twice into an empty store. -/
theorem c9_witness :
    (handleIncomingTask "agent" ["demo"]
        (handleIncomingTask "agent" ["demo"] [] wTaskOk 3).1 wTaskOk 3).1 =
      (handleIncomingTask "agent" ["demo"] [] wTaskOk 3).1 ∧
    countKey wTaskOk.id (handleIncomingTask "agent" ["demo"] [] wTaskOk 3).1 ≤ 1 ∧
    saveTask (saveTask [] wTaskOk) wTaskOk = saveTask [] wTaskOk :=
  c9_receive_idempotent "agent" ["demo"] [] [] wTaskOk 3 (by decide)

/-- C10: `_publish_post` marks a stored post `published` and saves it as
its first effect, before any per-platform dispatch; the dispatch outcomes
do not influence the saved store, so the post becomes `published`
regardless of per-platform success; and `_handle_post_status_update`
never changes any post's `status` — in particular a `failure` report
cannot move it to `failed`. -/
theorem c10_publish_contract (posts : List (String × ScheduledPost)) (post_id : String) (now : Nat)
    (sendOk sendOk' : String → Bool) (p : ScheduledPost)
    (h : dictGet post_id posts = some p) :
    dictGet post_id (publishPost posts post_id now sendOk).1 =
      some { p with status := PostStatus.published, updated_at := now } ∧
    (publishPost posts post_id now sendOk).2.head? =
      some (PublishEffect.save { p with status := PostStatus.published, updated_at := now }) ∧
    ((publishPost posts post_id now sendOk).2.tail.all PublishEffect.isDispatchLike) = true ∧
    (publishPost posts post_id now sendOk).1 = (publishPost posts post_id now sendOk').1 ∧
    (∀ (u : Task) (st : SchedState) (now2 : Nat) (qid : String),
      (dictGet qid (handlePostStatusUpdate u st now2).2.1.posts).map ScheduledPost.status =
        (dictGet qid st.posts).map ScheduledPost.status) := by
  unfold publishPost
  rw [h]
  refine ⟨dictGet_upsert_self _ _ _, rfl, ?_, rfl, ?_⟩
  · dsimp only
    simp only [List.tail_cons]
    rw [List.all_eq_true]
    intro e he
    rw [List.mem_filterMap] at he
    obtain ⟨a, _, hfa⟩ := he
    rcases hdg : dictGet a p.platform_specific_content with _ | c
    · rw [hdg] at hfa
      cases hfa
    · rw [hdg] at hfa
      dsimp only at hfa
      injection hfa with hfa2
      rw [← hfa2]
      split_ifs <;> rfl
  · intro u st now2 qid
    exact handlePostStatusUpdate_preserves_status u st now2 qid

/-- C10 witness: publishing the stored fixture post marks it `published`
with the save effect first, and a concrete `failure` status update leaves
its status unchanged. -/
theorem c10_witness :
    dictGet "pp" (publishPost [("pp", pubPost)] "pp" 9 (fun _ => true)).1 =
      some { pubPost with status := PostStatus.published, updated_at := 9 } ∧
    (publishPost [("pp", pubPost)] "pp" 9 (fun _ => true)).2.head? =
      some (PublishEffect.save { pubPost with status := PostStatus.published, updated_at := 9 }) ∧
    (dictGet "pp" (handlePostStatusUpdate failureUpdateTask
        ⟨[("pp", pubPost)], [], []⟩ 11).2.1.posts).map ScheduledPost.status =
      (dictGet "pp" (⟨[("pp", pubPost)], [], []⟩ : SchedState).posts).map
        ScheduledPost.status := by
  have hmain := c10_publish_contract [("pp", pubPost)] "pp" 9 (fun _ => true) (fun _ => false)
    pubPost (by decide)
  exact ⟨hmain.1, hmain.2.1, hmain.2.2.2.2 failureUpdateTask ⟨[("pp", pubPost)], [], []⟩ 11 "pp"⟩

end SocialSpark
